import Mathlib

/-!
Shallow embedding of the offside-check interactive geometry core:
the geometric kernel (src/lib/geometry.ts), the color palette
(src/lib/colors.ts), the pan clamp and the calibration / drag state
transitions of the canvas interaction hook (useCanvasInteraction), and
the ray deletion handler of the page component. Coordinates are exact
rationals; the source's floating tolerances (1e-10, the 0.5 dedup
radius, the 0.2 margin) become exact rational constants.
-/

namespace Offside

/-- Point record with x/y coordinates (src/types/index.ts). -/
@[ext] structure Point where
  x : ℚ
  y : ℚ
deriving DecidableEq

/-- Line through two points (src/types/index.ts). -/
structure Line where
  p1 : Point
  p2 : Point
deriving DecidableEq

/-- imageToScreen from src/lib/geometry.ts: p * scale + offset componentwise. -/
def imageToScreen (p : Point) (scale : ℚ) (offset : Point) : Point :=
  ⟨p.x * scale + offset.x, p.y * scale + offset.y⟩

/-- screenToImage from src/lib/geometry.ts: (screenPoint - offset) / scale componentwise. -/
def screenToImage (screenPoint : Point) (scale : ℚ) (offset : Point) : Point :=
  ⟨(screenPoint.x - offset.x) / scale, (screenPoint.y - offset.y) / scale⟩

/-- lineIntersection from src/lib/geometry.ts: solves the two-by-two system for
two lines each given by two points; returns none when the determinant is below
the 1e-10 tolerance (lines treated as parallel). -/
def lineIntersection (a b : Line) : Option Point :=
  let x1 := a.p1.x; let y1 := a.p1.y; let x2 := a.p2.x; let y2 := a.p2.y
  let x3 := b.p1.x; let y3 := b.p1.y; let x4 := b.p2.x; let y4 := b.p2.y
  let denom := (x1 - x2) * (y3 - y4) - (y1 - y2) * (x3 - x4)
  if |denom| < 1 / 10 ^ 10 then
    none
  else
    let t := ((x1 - x3) * (y3 - y4) - (y1 - y3) * (x3 - x4)) / denom
    some ⟨x1 + t * (x2 - x1), y1 + t * (y2 - y1)⟩

/-- computePanForZoomAroundPoint from src/lib/geometry.ts: the pan that keeps the
image point under focalScreenPoint fixed after the zoom changes to newZoom. -/
def computePanForZoomAroundPoint (focalScreenPoint : Point) (newZoom baseScale : ℚ)
    (baseOffset canvasCenter : Point) (oldEffScale : ℚ) (oldEffOffset : Point) : Point :=
  let imgX := (focalScreenPoint.x - oldEffOffset.x) / oldEffScale
  let imgY := (focalScreenPoint.y - oldEffOffset.y) / oldEffScale
  let newEffScale := baseScale * newZoom
  let basePart := baseOffset.x * newZoom + canvasCenter.x * (1 - newZoom)
  let panX := focalScreenPoint.x - imgX * newEffScale - basePart
  let basePartY := baseOffset.y * newZoom + canvasCenter.y * (1 - newZoom)
  let panY := focalScreenPoint.y - imgY * newEffScale - basePartY
  ⟨panX, panY⟩

/-- The candidate boundary crossings accumulated by extendLineToBounds
(src/lib/geometry.ts lines 93-129), in source push order: left edge, right
edge, top edge, bottom edge, each admitted only inside the widened window. -/
def extendCandidates (p1 p2 : Point) (width height : ℚ) : List Point :=
  let dx := p2.x - p1.x
  let dy := p2.y - p1.y
  (if |dx| > 1 / 10 ^ 10 then
      let t := (0 - p1.x) / dx
      let y := p1.y + t * dy
      if -height ≤ y ∧ y ≤ 2 * height then [⟨0, y⟩] else []
    else []) ++
  (if |dx| > 1 / 10 ^ 10 then
      let t := (width - p1.x) / dx
      let y := p1.y + t * dy
      if -height ≤ y ∧ y ≤ 2 * height then [⟨width, y⟩] else []
    else []) ++
  (if |dy| > 1 / 10 ^ 10 then
      let t := (0 - p1.y) / dy
      let x := p1.x + t * dx
      if -width ≤ x ∧ x ≤ 2 * width then [⟨x, 0⟩] else []
    else []) ++
  (if |dy| > 1 / 10 ^ 10 then
      let t := (height - p1.y) / dy
      let x := p1.x + t * dx
      if -width ≤ x ∧ x ≤ 2 * width then [⟨x, height⟩] else []
    else [])

/-- The near-duplicate removal loop of extendLineToBounds
(src/lib/geometry.ts lines 131-137): keep a point only when no already kept
point is within 0.5 of it on both axes. -/
def dedupPoints (pts : List Point) : List Point :=
  pts.foldl
    (fun unique pt =>
      if unique.any (fun u => |u.x - pt.x| < 1 / 2 ∧ |u.y - pt.y| < 1 / 2) then unique
      else unique ++ [pt])
    []

/-- extendLineToBounds from src/lib/geometry.ts: degenerate direction returns
the input pair unchanged; otherwise the first two deduplicated boundary
crossings; with fewer than two survivors, the 10000-unit extension fallback. -/
def extendLineToBounds (p1 p2 : Point) (width height : ℚ) : Point × Point :=
  let dx := p2.x - p1.x
  let dy := p2.y - p1.y
  if |dx| < 1 / 10 ^ 10 ∧ |dy| < 1 / 10 ^ 10 then
    (p1, p2)
  else
    match dedupPoints (extendCandidates p1 p2 width height) with
    | a :: b :: _ => (a, b)
    | _ =>
      (⟨p1.x - dx * 10000, p1.y - dy * 10000⟩,
       ⟨p1.x + dx * 10000, p1.y + dy * 10000⟩)

/-- The fixed 12-color palette OFFSIDE_COLORS (src/lib/colors.ts). -/
def OFFSIDE_COLORS : List String :=
  ["#FF4444", "#44FF44", "#FFFF44", "#FF8844", "#44FFFF", "#FF44FF",
   "#88FF44", "#4488FF", "#FF4488", "#44FF88", "#FFAA44", "#AA44FF"]

/-- getOffsideColor from src/lib/colors.ts: palette entry at index modulo the
palette length (the modulus keeps the index in bounds, so the getD default is
never reached). -/
def getOffsideColor (index : Nat) : String :=
  OFFSIDE_COLORS.getD (index % OFFSIDE_COLORS.length) (String.mk [])

/-- AppMode from src/types/index.ts: upload / calibration / offside. -/
inductive AppMode where
  | upload
  | calibration
  | offside
deriving DecidableEq

/-- OffsideLine from src/types/index.ts: id, through point and color. -/
structure OffsideLine where
  id : String
  throughPoint : Point
  color : String
deriving DecidableEq

/-- CalibrationState from src/types/index.ts. -/
structure CalibrationState where
  points : List Point
  line1 : Option Line
  line2 : Option Line
deriving DecidableEq

/-- DraggablePointSource from src/types/index.ts: a calibration point index or
an offside line id. -/
inductive DraggablePointSource where
  | calibration (index : Nat)
  | offside (lineId : String)
deriving DecidableEq

/-- DragState from src/types/index.ts. -/
structure DragState where
  source : DraggablePointSource
  originalPoint : Point
  currentPoint : Point
deriving DecidableEq

/-- The pieces of application state touched by the interaction hook: the mode,
the calibration state, the vanishing point, the offside lines and the
parallel-error flag (props of useCanvasInteraction, owned by page.tsx). -/
structure AppState where
  mode : AppMode
  calibration : CalibrationState
  vanishingPoint : Option Point
  offsideLines : List OffsideLine
  parallelError : Bool
deriving DecidableEq

/-- addPointAtImageCoords from src/hooks/useCanvasInteraction.ts (lines
312-352), as a transition on the combined state. In calibration mode the point
is appended (with the early no-op once a fifth point would be reached exactly
as the source's length guard produces); at two points line1 is derived, at four
points line2 is derived and the vanishing point computation runs, either
advancing to offside mode or raising the parallel-error flag. In offside mode
with a vanishing point present, a new offside line is appended whose id is the
supplied fresh id (the source draws it from crypto.randomUUID()) and whose
color indexes the palette by the current line count. -/
def addPointAtImageCoords (freshId : String) (imagePoint : Point) (s : AppState) : AppState :=
  match s.mode with
  | AppMode.calibration =>
    let prev := s.calibration
    let newPoints := prev.points ++ [imagePoint]
    if newPoints.length > 4 then s
    else
      let line1 := if newPoints.length = 2 then
          some ⟨newPoints.getD 0 imagePoint, newPoints.getD 1 imagePoint⟩
        else prev.line1
      let line2 := if newPoints.length = 4 then
          some ⟨newPoints.getD 2 imagePoint, newPoints.getD 3 imagePoint⟩
        else prev.line2
      if newPoints.length = 4 then
        match line1, line2 with
        | some l1, some l2 =>
          match lineIntersection l1 l2 with
          | some vp =>
            { mode := AppMode.offside
              calibration := ⟨newPoints, line1, line2⟩
              vanishingPoint := some vp
              offsideLines := s.offsideLines
              parallelError := false }
          | none =>
            { s with calibration := ⟨newPoints, line1, line2⟩, parallelError := true }
        | _, _ => { s with calibration := ⟨newPoints, line1, line2⟩ }
      else { s with calibration := ⟨newPoints, line1, line2⟩ }
  | AppMode.offside =>
    match s.vanishingPoint with
    | some _ =>
      { s with offsideLines := s.offsideLines ++
          [⟨freshId, imagePoint, getOffsideColor s.offsideLines.length⟩] }
    | none => s
  | AppMode.upload => s

/-- commitDrag from src/hooks/useCanvasInteraction.ts (lines 355-396): a
calibration source overwrites the dragged point in place, re-derives line1
(at two or more points) and line2 (at four or more points) and recomputes the
vanishing point when both lines exist; an offside source overwrites that
line's through point. -/
def commitDrag (drag : DragState) (s : AppState) : AppState :=
  match drag.source with
  | DraggablePointSource.calibration idx =>
    let prev := s.calibration
    let newPoints := prev.points.set idx drag.currentPoint
    let line1 := if 2 ≤ newPoints.length then
        some ⟨newPoints.getD 0 drag.currentPoint, newPoints.getD 1 drag.currentPoint⟩
      else prev.line1
    let line2 := if 4 ≤ newPoints.length then
        some ⟨newPoints.getD 2 drag.currentPoint, newPoints.getD 3 drag.currentPoint⟩
      else prev.line2
    match line1, line2 with
    | some l1, some l2 =>
      match lineIntersection l1 l2 with
      | some vp =>
        { s with calibration := ⟨newPoints, line1, line2⟩,
                 vanishingPoint := some vp,
                 parallelError := false }
      | none =>
        { s with calibration := ⟨newPoints, line1, line2⟩, parallelError := true }
    | _, _ => { s with calibration := ⟨newPoints, line1, line2⟩ }
  | DraggablePointSource.offside lineId =>
    { s with offsideLines :=
        s.offsideLines.map fun l =>
          if l.id = lineId then { l with throughPoint := drag.currentPoint } else l }

/-- handleDeleteLine from src/app/page.tsx (lines 57-59): filter out the line
with the given id. -/
def handleDeleteLine (id : String) (lines : List OffsideLine) : List OffsideLine :=
  lines.filter (fun l => l.id ≠ id)

/-- The image dimensions read by clampPan. -/
structure ImgDims where
  width : ℚ
  height : ℚ
deriving DecidableEq

/-- The base layout held in layoutRef of useCanvasInteraction: fit scale,
centering offset and canvas dimensions. -/
structure Layout where
  scale : ℚ
  offset : Point
  canvasWidth : ℚ
  canvasHeight : ℚ
deriving DecidableEq

/-- clampPan from src/hooks/useCanvasInteraction.ts (lines 155-182): with no
image the pan passes through; otherwise each pan component is clamped so that
at least a 0.2 fraction of the scaled image stays inside the canvas on that
axis. -/
def clampPan (layout : Layout) (image : Option ImgDims) (pan : Point) (zoom : ℚ) : Point :=
  match image with
  | none => pan
  | some img =>
    let imgW := img.width * layout.scale * zoom
    let imgH := img.height * layout.scale * zoom
    let margin : ℚ := 1 / 5
    let centerX := layout.canvasWidth / 2
    let centerY := layout.canvasHeight / 2
    let naturalX := layout.offset.x * zoom + centerX * (1 - zoom)
    let naturalY := layout.offset.y * zoom + centerY * (1 - zoom)
    let minPanX := -(naturalX + imgW - layout.canvasWidth * margin)
    let maxPanX := layout.canvasWidth * (1 - margin) - naturalX
    let minPanY := -(naturalY + imgH - layout.canvasHeight * margin)
    let maxPanY := layout.canvasHeight * (1 - margin) - naturalY
    ⟨min (max pan.x minPanX) maxPanX, min (max pan.y minPanY) maxPanY⟩

/-- The two-point line equation: p lies on the infinite line through l.p1 and
l.p2 exactly when the cross product of p - l.p1 with l.p2 - l.p1 vanishes. -/
def onLine (p : Point) (l : Line) : Prop :=
  (p.x - l.p1.x) * (l.p2.y - l.p1.y) = (p.y - l.p1.y) * (l.p2.x - l.p1.x)

instance (p : Point) (l : Line) : Decidable (onLine p l) := by
  unfold onLine; infer_instance

/-- One-dimensional clamp used per axis by clampPan: min (max x lo) hi is
idempotent for every ordering of the bounds. -/
theorem minmax_clamp_idem (x lo hi : ℚ) :
    min (max (min (max x lo) hi) lo) hi = min (max x lo) hi := by
  rcases le_total lo hi with h | h <;>
    simp only [min_def, max_def] <;> split_ifs <;> linarith

/-- C7: the screen-to-image transform inverts the image-to-screen transform
exactly, for every point, every positive scale and every offset. -/
theorem screenToImage_imageToScreen (p offset : Point) (scale : ℚ)
    (hs : 0 < scale) :
    screenToImage (imageToScreen p scale offset) scale offset = p := by
  have h : scale ≠ 0 := ne_of_gt hs
  unfold imageToScreen screenToImage
  ext <;> field_simp

/-- Witness for C7 at p = (3,7), scale = 2, offset = (1,4). -/
theorem screenToImage_imageToScreen_witness :
    (0:ℚ) < 2 ∧ screenToImage (imageToScreen ⟨3, 7⟩ 2 ⟨1, 4⟩) 2 ⟨1, 4⟩ = (⟨3, 7⟩ : Point) :=
  ⟨by norm_num, screenToImage_imageToScreen ⟨3, 7⟩ ⟨1, 4⟩ 2 (by norm_num)⟩

/-- C10: whenever lineIntersection returns a point, that point satisfies the
two-point line equation of both input lines, exactly over rational
arithmetic. -/
theorem lineIntersection_mem_both (a b : Line) (p : Point)
    (h : lineIntersection a b = some p) : onLine p a ∧ onLine p b := by
  unfold lineIntersection at h
  simp at h
  obtain ⟨hge, hp⟩ := h
  have hne : (a.p1.x - a.p2.x) * (b.p1.y - b.p2.y) -
      (a.p1.y - a.p2.y) * (b.p1.x - b.p2.x) ≠ 0 := by
    intro h0
    rw [h0] at hge
    norm_num at hge
  subst hp
  constructor
  · unfold onLine
    ring
  · unfold onLine
    field_simp
    ring

/-- Witness for C10 at the two diagonals of the 10-by-10 square, which meet
at (5,5). -/
theorem lineIntersection_mem_both_witness :
    lineIntersection ⟨⟨0, 0⟩, ⟨10, 10⟩⟩ ⟨⟨0, 10⟩, ⟨10, 0⟩⟩ = some ⟨5, 5⟩ ∧
      (onLine ⟨5, 5⟩ ⟨⟨0, 0⟩, ⟨10, 10⟩⟩ ∧ onLine ⟨5, 5⟩ ⟨⟨0, 10⟩, ⟨10, 0⟩⟩) :=
  ⟨by norm_num [lineIntersection],
   lineIntersection_mem_both ⟨⟨0, 0⟩, ⟨10, 10⟩⟩ ⟨⟨0, 10⟩, ⟨10, 0⟩⟩ ⟨5, 5⟩
     (by norm_num [lineIntersection])⟩

/-- C6: applying the pan returned by computePanForZoomAroundPoint, the new
effective transform maps the image point that was under the focal screen point
back to that exact screen point, whenever the old effective scale is nonzero
and the effective zoom ratio lies in the 0.2 to 5 band. -/
theorem computePanForZoomAroundPoint_anchors (focalScreenPoint : Point)
    (newZoom baseScale : ℚ) (baseOffset canvasCenter : Point)
    (oldEffScale : ℚ) (oldEffOffset : Point)
    (hold : oldEffScale ≠ 0)
    (hr1 : 1 / 5 ≤ baseScale * newZoom / oldEffScale)
    (hr2 : baseScale * newZoom / oldEffScale ≤ 5) :
    imageToScreen (screenToImage focalScreenPoint oldEffScale oldEffOffset)
      (baseScale * newZoom)
      ⟨baseOffset.x * newZoom + canvasCenter.x * (1 - newZoom) +
          (computePanForZoomAroundPoint focalScreenPoint newZoom baseScale
            baseOffset canvasCenter oldEffScale oldEffOffset).x,
        baseOffset.y * newZoom + canvasCenter.y * (1 - newZoom) +
          (computePanForZoomAroundPoint focalScreenPoint newZoom baseScale
            baseOffset canvasCenter oldEffScale oldEffOffset).y⟩
      = focalScreenPoint := by
  unfold imageToScreen screenToImage computePanForZoomAroundPoint
  ext <;> ring

/-- Witness for C6 at focal point (30,40), zoom ratio 2, which is inside the
0.2 to 5 band. -/
theorem computePanForZoomAroundPoint_anchors_witness :
    ((2:ℚ) ≠ 0 ∧ 1 / 5 ≤ (1 * 4 : ℚ) / 2 ∧ (1 * 4 : ℚ) / 2 ≤ 5) ∧
      imageToScreen (screenToImage ⟨30, 40⟩ 2 ⟨5, 6⟩) (1 * 4)
        ⟨(7:ℚ) * 4 + 50 * (1 - 4) +
            (computePanForZoomAroundPoint ⟨30, 40⟩ 4 1 ⟨7, 8⟩ ⟨50, 60⟩ 2 ⟨5, 6⟩).x,
          (8:ℚ) * 4 + 60 * (1 - 4) +
            (computePanForZoomAroundPoint ⟨30, 40⟩ 4 1 ⟨7, 8⟩ ⟨50, 60⟩ 2 ⟨5, 6⟩).y⟩
        = (⟨30, 40⟩ : Point) :=
  ⟨⟨by norm_num, by norm_num, by norm_num⟩,
   computePanForZoomAroundPoint_anchors ⟨30, 40⟩ 4 1 ⟨7, 8⟩ ⟨50, 60⟩ 2 ⟨5, 6⟩
     (by norm_num) (by norm_num) (by norm_num)⟩

/-- C8: the pan clamp is idempotent: clamping an already clamped pan at the
same zoom returns it unchanged, for every layout, image, pan and zoom. -/
theorem clampPan_idempotent (layout : Layout) (image : Option ImgDims)
    (pan : Point) (zoom : ℚ) :
    clampPan layout image (clampPan layout image pan zoom) zoom
      = clampPan layout image pan zoom := by
  cases image with
  | none => rfl
  | some img =>
    simp only [clampPan]
    ext
    · exact minmax_clamp_idem _ _ _
    · exact minmax_clamp_idem _ _ _

/-- One-dimensional fact: clamping zero between a nonpositive lower bound and a
nonnegative upper bound returns zero. -/
theorem clamp_zero_of (lo hi : ℚ) (h1 : lo ≤ 0) (h2 : 0 ≤ hi) :
    min (max 0 lo) hi = 0 := by
  rw [max_eq_left h1, min_eq_left h2]

/-- C4 counterexample: with the fit layout of a 100 by 100 image on a 1000 by
1000 canvas (scale 10, centered offset (0,0)), the candidate pan (100,0) at
zoom 1 is returned unchanged by clampPan, so clampPan does not send every pan
to (0,0) at zoom 1. -/
theorem clampPan_zoom_one_counterexample :
    clampPan ⟨10, ⟨0, 0⟩, 1000, 1000⟩ (some ⟨100, 100⟩) ⟨100, 0⟩ 1 = ⟨100, 0⟩ ∧
      (⟨100, 0⟩ : Point) ≠ ⟨0, 0⟩ := by
  constructor
  · simp only [clampPan]
    ext <;> norm_num [min_def, max_def]
  · intro h
    have := congrArg Point.x h
    norm_num at this

/-- C4 (amended): at zoom 1 the clamp does not force an arbitrary pan to
(0,0); it only restricts pan to an interval that contains (0,0). Under the
fit-to-container layout (centered offset, nonnegative scaled image and canvas
dimensions) the zero pan is a fixed point: clampPan((0,0), 1) = (0,0), and no
panning at zoom 1 is enforced elsewhere (pan gestures require zoom > 1). -/
theorem clampPan_zoom_one_zero_fixed (img : ImgDims) (layout : Layout)
    (hox : layout.offset.x = (layout.canvasWidth - img.width * layout.scale) / 2)
    (hoy : layout.offset.y = (layout.canvasHeight - img.height * layout.scale) / 2)
    (hw : 0 ≤ img.width * layout.scale)
    (hh : 0 ≤ img.height * layout.scale)
    (hcw : 0 ≤ layout.canvasWidth)
    (hch : 0 ≤ layout.canvasHeight) :
    clampPan layout (some img) ⟨0, 0⟩ 1 = ⟨0, 0⟩ := by
  simp only [clampPan]
  ext
  · exact clamp_zero_of _ _ (by rw [hox]; linarith) (by rw [hox]; linarith)
  · exact clamp_zero_of _ _ (by rw [hoy]; linarith) (by rw [hoy]; linarith)

/-- Witness for the amended C4 at the fit layout of a 100 by 100 image on a
1000 by 1000 canvas. -/
theorem clampPan_zoom_one_zero_fixed_witness :
    ((0:ℚ) = (1000 - 100 * 10) / 2 ∧ (0:ℚ) ≤ 100 * 10 ∧ (0:ℚ) ≤ 1000) ∧
      clampPan ⟨10, ⟨0, 0⟩, 1000, 1000⟩ (some ⟨100, 100⟩) ⟨0, 0⟩ 1 = ⟨0, 0⟩ :=
  ⟨⟨by norm_num, by norm_num, by norm_num⟩,
   clampPan_zoom_one_zero_fixed ⟨100, 100⟩ ⟨10, ⟨0, 0⟩, 1000, 1000⟩
     (by norm_num) (by norm_num) (by norm_num) (by norm_num) (by norm_num)
     (by norm_num)⟩

/-- C3 counterexample: at the degenerate input p1 = (0,0), p2 = (1e-11, 0)
(both direction components below the 1e-10 tolerance), extendLineToBounds
returns the input pair (p1, p2) unchanged, which differs from the pair
obtained by extending 10000 units along the direction vector, so the
degenerate case does not take the 10000-unit fallback. -/
theorem extendLineToBounds_degenerate_counterexample :
    (|(1 / 10 ^ 11 : ℚ) - 0| < 1 / 10 ^ 10 ∧ |(0 : ℚ) - 0| < 1 / 10 ^ 10) ∧
      extendLineToBounds ⟨0, 0⟩ ⟨1 / 10 ^ 11, 0⟩ 100 100
        = (⟨0, 0⟩, ⟨1 / 10 ^ 11, 0⟩) ∧
      (⟨0, 0⟩ : Point) ≠ ⟨0 - (1 / 10 ^ 11 - 0) * 10000, 0 - (0 - 0) * 10000⟩ := by
  refine ⟨⟨by norm_num [abs_of_nonneg], by norm_num⟩, ?_, ?_⟩
  · simp only [extendLineToBounds]
    rw [if_pos (by norm_num [abs_of_nonneg])]
  · intro h
    have := congrArg Point.x h
    norm_num at this

/-- C3 (amended): a degenerate direction (both components below the 1e-10
tolerance) returns the input pair (p1, p2) unchanged via the early guard; the
10000-unit extension fallback applies exactly in the remaining cases where
fewer than two boundary crossings survive deduplication. -/
theorem extendLineToBounds_fallback_cases (p1 p2 : Point) (width height : ℚ) :
    (|p2.x - p1.x| < 1 / 10 ^ 10 ∧ |p2.y - p1.y| < 1 / 10 ^ 10 →
       extendLineToBounds p1 p2 width height = (p1, p2)) ∧
    (¬(|p2.x - p1.x| < 1 / 10 ^ 10 ∧ |p2.y - p1.y| < 1 / 10 ^ 10) →
     (dedupPoints (extendCandidates p1 p2 width height)).length < 2 →
       extendLineToBounds p1 p2 width height =
         (⟨p1.x - (p2.x - p1.x) * 10000, p1.y - (p2.y - p1.y) * 10000⟩,
          ⟨p1.x + (p2.x - p1.x) * 10000, p1.y + (p2.y - p1.y) * 10000⟩)) := by
  constructor
  · intro h
    simp only [extendLineToBounds]
    rw [if_pos h]
  · intro h hlen
    simp only [extendLineToBounds]
    rw [if_neg h]
    rcases hd : dedupPoints (extendCandidates p1 p2 width height) with _ | ⟨a, _ | ⟨b, rest⟩⟩
    · rfl
    · rfl
    · rw [hd] at hlen
      simp at hlen
      omega

/-- Witness for the amended C3: the fully degenerate input (0,0) twice takes
the early return, and the vertical line x = 1000 far outside the 10 by 10
viewport window leaves no surviving crossing and takes the 10000-unit
fallback. -/
theorem extendLineToBounds_fallback_cases_witness :
    extendLineToBounds ⟨0, 0⟩ ⟨0, 0⟩ 10 10 = (⟨0, 0⟩, ⟨0, 0⟩) ∧
      extendLineToBounds ⟨1000, 0⟩ ⟨1000, 1⟩ 10 10
        = (⟨1000, -10000⟩, ⟨1000, 10000⟩) := by
  constructor
  · exact (extendLineToBounds_fallback_cases ⟨0, 0⟩ ⟨0, 0⟩ 10 10).1
      (by norm_num)
  · have h := (extendLineToBounds_fallback_cases ⟨1000, 0⟩ ⟨1000, 1⟩ 10 10).2
      (by norm_num) (by norm_num [dedupPoints, extendCandidates])
    simpa using h

/-- C1: from a fresh calibrating state, appending four points whose derived
lines intersect sets the vanishing point to that intersection, moves to
offside (ray-drawing) mode and clears the parallel-error flag; if the derived
lines are parallel the mode stays calibrating, the flag is set and the
vanishing point stays null. -/
theorem addPoint_calibration_flow (s s4 : AppState) (i0 i1 i2 i3 : String)
    (p0 p1 p2 p3 : Point)
    (hm : s.mode = AppMode.calibration)
    (hc : s.calibration = ⟨[], none, none⟩)
    (hv : s.vanishingPoint = none)
    (hs4 : s4 = addPointAtImageCoords i3 p3 (addPointAtImageCoords i2 p2
      (addPointAtImageCoords i1 p1 (addPointAtImageCoords i0 p0 s)))) :
    (∀ v, lineIntersection ⟨p0, p1⟩ ⟨p2, p3⟩ = some v →
        s4.mode = AppMode.offside ∧ s4.vanishingPoint = some v ∧
          s4.parallelError = false) ∧
    (lineIntersection ⟨p0, p1⟩ ⟨p2, p3⟩ = none →
        s4.mode = AppMode.calibration ∧ s4.parallelError = true ∧
          s4.vanishingPoint = none) := by
  obtain ⟨m, c, vp, rays, perr⟩ := s
  simp only at hm hc hv
  subst hm hc hv hs4
  constructor
  · intro v hint
    simp [addPointAtImageCoords, hint]
  · intro hnone
    simp [addPointAtImageCoords, hnone]

/-- Witness for C1: the crossing quadruple (0,0),(10,10),(0,10),(10,0) lands
in offside mode with vanishing point (5,5) and a cleared flag, and the
parallel quadruple (0,0),(10,0),(0,10),(10,10) stays calibrating with the
flag set and no vanishing point; both runs start with the flag set to true to
show the clearing. -/
theorem addPoint_calibration_flow_witness :
    ((addPointAtImageCoords (String.mk []) ⟨10, 0⟩ (addPointAtImageCoords (String.mk []) ⟨0, 10⟩
        (addPointAtImageCoords (String.mk []) ⟨10, 10⟩ (addPointAtImageCoords (String.mk []) ⟨0, 0⟩
          ⟨AppMode.calibration, ⟨[], none, none⟩, none, [], true⟩)))).mode = AppMode.offside ∧
      (addPointAtImageCoords (String.mk []) ⟨10, 0⟩ (addPointAtImageCoords (String.mk []) ⟨0, 10⟩
        (addPointAtImageCoords (String.mk []) ⟨10, 10⟩ (addPointAtImageCoords (String.mk []) ⟨0, 0⟩
          ⟨AppMode.calibration, ⟨[], none, none⟩, none, [], true⟩)))).vanishingPoint = some ⟨5, 5⟩ ∧
      (addPointAtImageCoords (String.mk []) ⟨10, 0⟩ (addPointAtImageCoords (String.mk []) ⟨0, 10⟩
        (addPointAtImageCoords (String.mk []) ⟨10, 10⟩ (addPointAtImageCoords (String.mk []) ⟨0, 0⟩
          ⟨AppMode.calibration, ⟨[], none, none⟩, none, [], true⟩)))).parallelError = false) ∧
    ((addPointAtImageCoords (String.mk []) ⟨10, 10⟩ (addPointAtImageCoords (String.mk []) ⟨0, 10⟩
        (addPointAtImageCoords (String.mk []) ⟨10, 0⟩ (addPointAtImageCoords (String.mk []) ⟨0, 0⟩
          ⟨AppMode.calibration, ⟨[], none, none⟩, none, [], true⟩)))).mode = AppMode.calibration ∧
      (addPointAtImageCoords (String.mk []) ⟨10, 10⟩ (addPointAtImageCoords (String.mk []) ⟨0, 10⟩
        (addPointAtImageCoords (String.mk []) ⟨10, 0⟩ (addPointAtImageCoords (String.mk []) ⟨0, 0⟩
          ⟨AppMode.calibration, ⟨[], none, none⟩, none, [], true⟩)))).parallelError = true ∧
      (addPointAtImageCoords (String.mk []) ⟨10, 10⟩ (addPointAtImageCoords (String.mk []) ⟨0, 10⟩
        (addPointAtImageCoords (String.mk []) ⟨10, 0⟩ (addPointAtImageCoords (String.mk []) ⟨0, 0⟩
          ⟨AppMode.calibration, ⟨[], none, none⟩, none, [], true⟩)))).vanishingPoint = none) :=
  ⟨(addPoint_calibration_flow ⟨AppMode.calibration, ⟨[], none, none⟩, none, [], true⟩ _
      (String.mk []) (String.mk []) (String.mk []) (String.mk [])
      ⟨0, 0⟩ ⟨10, 10⟩ ⟨0, 10⟩ ⟨10, 0⟩ rfl rfl rfl rfl).1 ⟨5, 5⟩
      (by norm_num [lineIntersection]),
   (addPoint_calibration_flow ⟨AppMode.calibration, ⟨[], none, none⟩, none, [], true⟩ _
      (String.mk []) (String.mk []) (String.mk []) (String.mk [])
      ⟨0, 0⟩ ⟨10, 0⟩ ⟨0, 10⟩ ⟨10, 10⟩ rfl rfl rfl rfl).2
      (by norm_num [lineIntersection])⟩

/-- C5: out-of-range add-point intents are silent no-ops that return the state
unchanged: a fifth point in calibrating mode (four points already present) and
a ray click in offside mode with no vanishing point both leave every part of
the state exactly as it was. -/
theorem addPoint_out_of_range_noop (s : AppState) (freshId : String) (p : Point) :
    (s.mode = AppMode.calibration → s.calibration.points.length = 4 →
        addPointAtImageCoords freshId p s = s) ∧
    (s.mode = AppMode.offside → s.vanishingPoint = none →
        addPointAtImageCoords freshId p s = s) := by
  constructor
  · intro hm h4
    simp [addPointAtImageCoords, hm, h4]
  · intro hm hv
    simp [addPointAtImageCoords, hm, hv]

/-- Witness for C5: a concrete four-point calibrating state and a concrete
offside state with a null vanishing point, both returned unchanged. -/
theorem addPoint_out_of_range_noop_witness :
    addPointAtImageCoords (String.mk []) ⟨9, 9⟩
        ⟨AppMode.calibration,
         ⟨[⟨0, 0⟩, ⟨10, 10⟩, ⟨0, 10⟩, ⟨10, 0⟩],
          some ⟨⟨0, 0⟩, ⟨10, 10⟩⟩, some ⟨⟨0, 10⟩, ⟨10, 0⟩⟩⟩,
         some ⟨5, 5⟩, [], false⟩
      = ⟨AppMode.calibration,
         ⟨[⟨0, 0⟩, ⟨10, 10⟩, ⟨0, 10⟩, ⟨10, 0⟩],
          some ⟨⟨0, 0⟩, ⟨10, 10⟩⟩, some ⟨⟨0, 10⟩, ⟨10, 0⟩⟩⟩,
         some ⟨5, 5⟩, [], false⟩ ∧
    addPointAtImageCoords (String.mk []) ⟨9, 9⟩
        ⟨AppMode.offside, ⟨[], none, none⟩, none, [], false⟩
      = ⟨AppMode.offside, ⟨[], none, none⟩, none, [], false⟩ :=
  ⟨(addPoint_out_of_range_noop _ (String.mk []) ⟨9, 9⟩).1 rfl rfl,
   (addPoint_out_of_range_noop _ (String.mk []) ⟨9, 9⟩).2 rfl rfl⟩

/-- C2: committing a drag whose source is a calibration point index overwrites
that point with the drag's current position, re-derives line1 from the updated
points 0 and 1 when at least two points exist and line2 from points 2 and 3
when at least four exist, and recomputes the vanishing point from the dragged
positions: success stores the new vanishing point and clears the
parallel-error flag, failure sets the flag while the previously stored
vanishing point is left unchanged (last good value). -/
theorem commitDrag_calibration_recompute (s s' : AppState) (idx : Nat)
    (orig cur : Point)
    (hidx : idx < s.calibration.points.length)
    (hs : s' = commitDrag ⟨DraggablePointSource.calibration idx, orig, cur⟩ s) :
    s'.calibration.points = s.calibration.points.set idx cur ∧
    s'.calibration.points[idx]? = some cur ∧
    (2 ≤ s.calibration.points.length →
      s'.calibration.line1
        = some ⟨(s.calibration.points.set idx cur).getD 0 cur,
                (s.calibration.points.set idx cur).getD 1 cur⟩) ∧
    (4 ≤ s.calibration.points.length →
      s'.calibration.line2
        = some ⟨(s.calibration.points.set idx cur).getD 2 cur,
                (s.calibration.points.set idx cur).getD 3 cur⟩) ∧
    (4 ≤ s.calibration.points.length →
      (∀ v, lineIntersection
            ⟨(s.calibration.points.set idx cur).getD 0 cur,
             (s.calibration.points.set idx cur).getD 1 cur⟩
            ⟨(s.calibration.points.set idx cur).getD 2 cur,
             (s.calibration.points.set idx cur).getD 3 cur⟩ = some v →
          s'.vanishingPoint = some v ∧ s'.parallelError = false) ∧
      (lineIntersection
            ⟨(s.calibration.points.set idx cur).getD 0 cur,
             (s.calibration.points.set idx cur).getD 1 cur⟩
            ⟨(s.calibration.points.set idx cur).getD 2 cur,
             (s.calibration.points.set idx cur).getD 3 cur⟩ = none →
          s'.parallelError = true ∧ s'.vanishingPoint = s.vanishingPoint)) := by
  subst hs
  obtain ⟨m, ⟨pts, la, lb⟩, vp, rays, perr⟩ := s
  simp only at hidx ⊢
  refine ⟨?_, ?_, ?_, ?_, ?_⟩
  · simp only [commitDrag]
    split
    · split <;> rfl
    · rfl
  · simp only [commitDrag]
    have hget := List.getElem?_set_eq_of_lt cur (l := pts) (n := idx) hidx
    split
    · split <;> simpa using hget
    · simpa using hget
  · intro h2
    have h2' : 2 ≤ (pts.set idx cur).length := by
      simpa using h2
    simp only [commitDrag, if_pos h2']
    split
    · split <;> rfl
    · rfl
  · intro h4
    have h4' : 4 ≤ (pts.set idx cur).length := by
      simpa using h4
    simp only [commitDrag, if_pos h4']
    split
    · split <;> rfl
    · rfl
  · intro h4
    have h2' : 2 ≤ (pts.set idx cur).length := by
      simp only [List.length_set]
      omega
    have h4' : 4 ≤ (pts.set idx cur).length := by
      simpa using h4
    simp only [commitDrag, if_pos h2', if_pos h4']
    constructor
    · intro v hint
      simp only [List.getD_eq_getElem?_getD] at hint
      simp [hint]
    · intro hnone
      simp only [List.getD_eq_getElem?_getD] at hnone
      simp [hnone]

/-- Witness for C2: dragging calibration point 0 of the square example from
(0,0) to (0,2) rederives both lines and recomputes the vanishing point to
(40/9, 50/9) with the flag cleared. -/
theorem commitDrag_calibration_recompute_witness :
    (commitDrag ⟨DraggablePointSource.calibration 0, ⟨0, 0⟩, ⟨0, 2⟩⟩
        ⟨AppMode.offside,
         ⟨[⟨0, 0⟩, ⟨10, 10⟩, ⟨0, 10⟩, ⟨10, 0⟩],
          some ⟨⟨0, 0⟩, ⟨10, 10⟩⟩, some ⟨⟨0, 10⟩, ⟨10, 0⟩⟩⟩,
         some ⟨5, 5⟩, [], false⟩).calibration.points
      = [⟨0, 2⟩, ⟨10, 10⟩, ⟨0, 10⟩, ⟨10, 0⟩] ∧
    (commitDrag ⟨DraggablePointSource.calibration 0, ⟨0, 0⟩, ⟨0, 2⟩⟩
        ⟨AppMode.offside,
         ⟨[⟨0, 0⟩, ⟨10, 10⟩, ⟨0, 10⟩, ⟨10, 0⟩],
          some ⟨⟨0, 0⟩, ⟨10, 10⟩⟩, some ⟨⟨0, 10⟩, ⟨10, 0⟩⟩⟩,
         some ⟨5, 5⟩, [], false⟩).vanishingPoint = some ⟨40 / 9, 50 / 9⟩ ∧
    (commitDrag ⟨DraggablePointSource.calibration 0, ⟨0, 0⟩, ⟨0, 2⟩⟩
        ⟨AppMode.offside,
         ⟨[⟨0, 0⟩, ⟨10, 10⟩, ⟨0, 10⟩, ⟨10, 0⟩],
          some ⟨⟨0, 0⟩, ⟨10, 10⟩⟩, some ⟨⟨0, 10⟩, ⟨10, 0⟩⟩⟩,
         some ⟨5, 5⟩, [], false⟩).parallelError = false := by
  have h := commitDrag_calibration_recompute
    ⟨AppMode.offside,
     ⟨[⟨0, 0⟩, ⟨10, 10⟩, ⟨0, 10⟩, ⟨10, 0⟩],
      some ⟨⟨0, 0⟩, ⟨10, 10⟩⟩, some ⟨⟨0, 10⟩, ⟨10, 0⟩⟩⟩,
     some ⟨5, 5⟩, [], false⟩ _ 0 ⟨0, 0⟩ ⟨0, 2⟩ (by norm_num) rfl
  refine ⟨by simpa using h.1, ?_, ?_⟩
  · have hv := (h.2.2.2.2 (by norm_num)).1 ⟨40 / 9, 50 / 9⟩
      (by norm_num [lineIntersection])
    exact hv.1
  · have hv := (h.2.2.2.2 (by norm_num)).1 ⟨40 / 9, 50 / 9⟩
      (by norm_num [lineIntersection])
    exact hv.2

/-- C9: a newly created ray's color is purely a function of the ray count at
creation time: the new ray is appended with color palette[count mod palette
length] over the fixed 12-color palette, and deleting a ray leaves every
remaining ray (its id, color and through point) unchanged. -/
theorem ray_color_and_delete :
    (∀ (freshId : String) (p : Point) (s : AppState) (v : Point),
        s.mode = AppMode.offside → s.vanishingPoint = some v →
        (addPointAtImageCoords freshId p s).offsideLines
          = s.offsideLines ++
            [⟨freshId, p,
              OFFSIDE_COLORS.getD (s.offsideLines.length % OFFSIDE_COLORS.length)
                (String.mk [])⟩]) ∧
    OFFSIDE_COLORS.length = 12 ∧
    (∀ (lid : String) (lines : List OffsideLine) (l : OffsideLine),
        l ∈ handleDeleteLine lid lines → l ∈ lines) := by
  refine ⟨?_, rfl, ?_⟩
  · intro freshId p s v hm hv
    obtain ⟨m, c, vp, rays, perr⟩ := s
    simp only at hm hv
    subst hm hv
    simp [addPointAtImageCoords, getOffsideColor]
  · intro lid lines l hl
    exact List.mem_of_mem_filter hl

/-- Witness for C9: adding a fourth ray to a three-ray state appends a ray
with the fourth palette color, and the ray with id c survives deleting the
middle ray b unchanged (it is one of the original three). -/
theorem ray_color_and_delete_witness :
    (addPointAtImageCoords (String.mk [Char.ofNat 100]) ⟨1, 2⟩
        ⟨AppMode.offside, ⟨[], none, none⟩, some ⟨5, 5⟩,
         [⟨String.mk [Char.ofNat 97], ⟨0, 0⟩, getOffsideColor 0⟩,
          ⟨String.mk [Char.ofNat 98], ⟨1, 0⟩, getOffsideColor 1⟩,
          ⟨String.mk [Char.ofNat 99], ⟨2, 0⟩, getOffsideColor 2⟩],
         false⟩).offsideLines
      = [⟨String.mk [Char.ofNat 97], ⟨0, 0⟩, getOffsideColor 0⟩,
         ⟨String.mk [Char.ofNat 98], ⟨1, 0⟩, getOffsideColor 1⟩,
         ⟨String.mk [Char.ofNat 99], ⟨2, 0⟩, getOffsideColor 2⟩] ++
        [⟨String.mk [Char.ofNat 100], ⟨1, 2⟩,
          OFFSIDE_COLORS.getD (3 % OFFSIDE_COLORS.length) (String.mk [])⟩] ∧
    (⟨String.mk [Char.ofNat 99], ⟨2, 0⟩, getOffsideColor 2⟩ : OffsideLine)
      ∈ [⟨String.mk [Char.ofNat 97], ⟨0, 0⟩, getOffsideColor 0⟩,
         ⟨String.mk [Char.ofNat 98], ⟨1, 0⟩, getOffsideColor 1⟩,
         ⟨String.mk [Char.ofNat 99], ⟨2, 0⟩, getOffsideColor 2⟩] := by
  constructor
  · exact ray_color_and_delete.1 (String.mk [Char.ofNat 100]) ⟨1, 2⟩
      ⟨AppMode.offside, ⟨[], none, none⟩, some ⟨5, 5⟩,
       [⟨String.mk [Char.ofNat 97], ⟨0, 0⟩, getOffsideColor 0⟩,
        ⟨String.mk [Char.ofNat 98], ⟨1, 0⟩, getOffsideColor 1⟩,
        ⟨String.mk [Char.ofNat 99], ⟨2, 0⟩, getOffsideColor 2⟩],
       false⟩ ⟨5, 5⟩ rfl rfl
  · refine ray_color_and_delete.2.2 (String.mk [Char.ofNat 98])
      [⟨String.mk [Char.ofNat 97], ⟨0, 0⟩, getOffsideColor 0⟩,
       ⟨String.mk [Char.ofNat 98], ⟨1, 0⟩, getOffsideColor 1⟩,
       ⟨String.mk [Char.ofNat 99], ⟨2, 0⟩, getOffsideColor 2⟩]
      ⟨String.mk [Char.ofNat 99], ⟨2, 0⟩, getOffsideColor 2⟩ ?_
    simp [handleDeleteLine, getOffsideColor]

end Offside
